import Mathlib

/-!
Shallow embedding of `src/contracts/TimeLockInheritance.sol` (contract
`TimeLockInheritance`).  Addresses, timestamps, wei amounts and FHE ciphertext
handles are modelled as `Nat`; `require` failures are modelled as
`Except.error` carrying the revert reason, and a failed external call leaves
the pre-call state in force (EVM revert semantics), made explicit by `commit`.
-/

namespace TimeLock

/-- Unlock mode of a vault: `ONE_TIME` (all funds at once) or `STAGED`
(four yearly stages).  Mirrors `enum UnlockMode`. -/
inductive UnlockMode where
  | ONE_TIME
  | STAGED
deriving DecidableEq, Repr

/-- `uint256 public constant UNLOCK_INTERVAL = 365 days`. -/
def UNLOCK_INTERVAL : Nat := 365 * 24 * 60 * 60

/-- `uint256 public constant TOTAL_STAGES = 4`. -/
def TOTAL_STAGES : Nat := 4

/-- Mirrors `struct Vault`. -/
structure Vault where
  id : Nat
  creator : Nat
  totalAmount : Nat
  firstUnlockTime : Nat
  stagesUnlocked : Nat
  emergencyUnlocked : Bool
  isActive : Bool
  beneficiaryCount : Nat
  unlockMode : UnlockMode
deriving DecidableEq, Repr

/-- The zero-initialized `Vault` a Solidity mapping returns for an unassigned
key. -/
def defaultVault : Vault :=
  { id := 0, creator := 0, totalAmount := 0, firstUnlockTime := 0,
    stagesUnlocked := 0, emergencyUnlocked := false, isActive := false,
    beneficiaryCount := 0, unlockMode := UnlockMode.ONE_TIME }

/-- Mirrors `struct Beneficiary`; the two `euint128` ciphertexts are opaque
handles. -/
structure Beneficiary where
  encryptedAddress : Nat
  encryptedAmount : Nat
  totalClaimed : Nat
deriving DecidableEq, Repr

/-- Zero-initialized `Beneficiary` slot. -/
def defaultBeneficiary : Beneficiary :=
  { encryptedAddress := 0, encryptedAmount := 0, totalClaimed := 0 }

/-- The contract storage: the four mappings and `vaultCount`, plus a `payouts`
log recording every successful outgoing value transfer `(recipient, amount)`
made by `claimInheritance`. -/
structure ContractState where
  vaults : Nat → Vault
  beneficiaries : Nat → Nat → Beneficiary
  creatorVaults : Nat → List Nat
  beneficiaryVaults : Nat → List Nat
  vaultCount : Nat
  payouts : List (Nat × Nat)

/-- Storage of a freshly deployed contract: every mapping zero-initialized. -/
def initialState : ContractState :=
  { vaults := fun _ => defaultVault,
    beneficiaries := fun _ _ => defaultBeneficiary,
    creatorVaults := fun _ => [],
    beneficiaryVaults := fun _ => [],
    vaultCount := 0,
    payouts := [] }

/-- Revert reasons, one per `require` string in the contract. -/
inductive Err where
  | vaultDoesNotExist
  | vaultNotActive
  | notVaultCreator
  | mustDepositEth
  | unlockTimeNotInFuture
  | noBeneficiaries
  | invalidBeneficiaryIndex
  | beneficiaryAlreadyAdded
  | alreadyEmergencyUnlocked
  | noStagesUnlocked
  | notABeneficiary
  | nothingToClaim
  | transferFailed
  | invalidIndex
deriving DecidableEq, Repr

/-- The `vaultExists` modifier: `require(vaultId > 0 && vaultId <= vaultCount)`
then `require(vaults[vaultId].isActive)`.  Returns the revert reason, if any. -/
def vaultGuard (st : ContractState) (vaultId : Nat) : Option Err :=
  if ¬ (vaultId > 0 ∧ vaultId ≤ st.vaultCount) then some Err.vaultDoesNotExist
  else if ¬ (st.vaults vaultId).isActive then some Err.vaultNotActive
  else none

/-- `createVault(firstUnlockTime, unlockMode, beneficiaryCount)` with
`msg.sender`, `msg.value` and `block.timestamp` passed explicitly.  On success
returns the new state and the fresh vault id. -/
def createVault (st : ContractState) (sender value timestamp firstUnlockTime : Nat)
    (unlockMode : UnlockMode) (beneficiaryCount : Nat) :
    Except Err (ContractState × Nat) :=
  if ¬ value > 0 then Except.error Err.mustDepositEth
  else if ¬ firstUnlockTime > timestamp then Except.error Err.unlockTimeNotInFuture
  else if ¬ beneficiaryCount > 0 then Except.error Err.noBeneficiaries
  else
    let newCount := st.vaultCount + 1
    let v : Vault :=
      { id := newCount, creator := sender, totalAmount := value,
        firstUnlockTime := firstUnlockTime, stagesUnlocked := 0,
        emergencyUnlocked := false, isActive := true,
        beneficiaryCount := beneficiaryCount, unlockMode := unlockMode }
    Except.ok
      ({ st with
          vaults := fun n => if n = newCount then v else st.vaults n,
          creatorVaults := fun a =>
            if a = sender then st.creatorVaults a ++ [newCount]
            else st.creatorVaults a,
          vaultCount := newCount }, newCount)

/-- `addBeneficiary(vaultId, beneficiaryIndex, encryptedAddress,
encryptedAmount, proofs…)`; the two external ciphertexts arrive as opaque
handles (proof verification is the FHE library's concern). -/
def addBeneficiary (st : ContractState)
    (sender vaultId beneficiaryIndex encAddr encAmount : Nat) :
    Except Err ContractState :=
  match vaultGuard st vaultId with
  | some e => Except.error e
  | none =>
    if ¬ (st.vaults vaultId).creator = sender then Except.error Err.notVaultCreator
    else if ¬ beneficiaryIndex < (st.vaults vaultId).beneficiaryCount then
      Except.error Err.invalidBeneficiaryIndex
    else if ¬ (st.beneficiaries vaultId beneficiaryIndex).totalClaimed = 0 then
      Except.error Err.beneficiaryAlreadyAdded
    else
      Except.ok
        { st with
            beneficiaries := fun v i =>
              if v = vaultId ∧ i = beneficiaryIndex then
                { encryptedAddress := encAddr, encryptedAmount := encAmount,
                  totalClaimed := 0 }
              else st.beneficiaries v i }

/-- `emergencyUnlock(vaultId)`. -/
def emergencyUnlock (st : ContractState) (sender vaultId : Nat) :
    Except Err ContractState :=
  match vaultGuard st vaultId with
  | some e => Except.error e
  | none =>
    if ¬ (st.vaults vaultId).creator = sender then Except.error Err.notVaultCreator
    else if (st.vaults vaultId).emergencyUnlocked then
      Except.error Err.alreadyEmergencyUnlocked
    else
      Except.ok
        { st with
            vaults := fun n =>
              if n = vaultId then
                { st.vaults n with
                    emergencyUnlocked := true, stagesUnlocked := TOTAL_STAGES }
              else st.vaults n }

/-- `_getCurrentStage(vaultId)` with `block.timestamp` explicit. -/
def getCurrentStage (st : ContractState) (timestamp vaultId : Nat) : Nat :=
  let vault := st.vaults vaultId
  if vault.emergencyUnlocked then TOTAL_STAGES
  else if timestamp < vault.firstUnlockTime then 0
  else if vault.unlockMode = UnlockMode.ONE_TIME then TOTAL_STAGES
  else
    let timeElapsed := timestamp - vault.firstUnlockTime
    let stage := timeElapsed / UNLOCK_INTERVAL + 1
    if stage > TOTAL_STAGES then TOTAL_STAGES else stage

/-- `_findBeneficiaryAndCalculateClaim(vaultId, beneficiaryAddr)`.  The source
returns `(false, 0, 0)` both on `currentStage == 0` and at the final
`return (false, 0, 0); // Placeholder`: the FHE address comparison is
unimplemented. -/
def findBeneficiaryAndCalculateClaim (st : ContractState)
    (timestamp vaultId beneficiaryAddr : Nat) : Bool × Nat × Nat :=
  let currentStage := getCurrentStage st timestamp vaultId
  if currentStage = 0 then (false, 0, 0)
  else (false, 0, 0)

/-- `claimInheritance(vaultId)`.  `transferOk` is the success flag of the
external `msg.sender.call{value: claimableAmount}("")`. -/
def claimInheritance (st : ContractState) (sender timestamp vaultId : Nat)
    (transferOk : Bool) : Except Err ContractState :=
  match vaultGuard st vaultId with
  | some e => Except.error e
  | none =>
    let currentStage := getCurrentStage st timestamp vaultId
    if ¬ currentStage > 0 then Except.error Err.noStagesUnlocked
    else
      let vault := st.vaults vaultId
      let st1 :=
        if currentStage > vault.stagesUnlocked ∧ ¬ vault.emergencyUnlocked then
          { st with
              vaults := fun n =>
                if n = vaultId then { st.vaults n with stagesUnlocked := currentStage }
                else st.vaults n }
        else st
      match findBeneficiaryAndCalculateClaim st1 timestamp vaultId sender with
      | (found, beneficiaryIndex, claimableAmount) =>
        if ¬ found then Except.error Err.notABeneficiary
        else if ¬ claimableAmount > 0 then Except.error Err.nothingToClaim
        else
          let st2 :=
            { st1 with
                beneficiaries := fun v i =>
                  if v = vaultId ∧ i = beneficiaryIndex then
                    { st1.beneficiaries v i with
                        totalClaimed :=
                          (st1.beneficiaries v i).totalClaimed + claimableAmount }
                  else st1.beneficiaries v i }
          if ¬ transferOk then Except.error Err.transferFailed
          else
            let st3 := { st2 with payouts := st2.payouts ++ [(sender, claimableAmount)] }
            if (st3.beneficiaries vaultId beneficiaryIndex).totalClaimed = claimableAmount then
              Except.ok
                { st3 with
                    beneficiaryVaults := fun a =>
                      if a = sender then st3.beneficiaryVaults a ++ [vaultId]
                      else st3.beneficiaryVaults a }
            else Except.ok st3

/-- `checkInheritance(vaultId)` (view). -/
def checkInheritance (st : ContractState) (sender timestamp vaultId : Nat) :
    Except Err (Bool × Nat × Nat) :=
  match vaultGuard st vaultId with
  | some e => Except.error e
  | none =>
    match findBeneficiaryAndCalculateClaim st timestamp vaultId sender with
    | (found, _, claimable) =>
      if ¬ found then Except.ok (false, 0, 0)
      else Except.ok (true, claimable, 0)

/-- `getVault(vaultId)` (view). -/
def getVault (st : ContractState) (vaultId : Nat) : Except Err Vault :=
  match vaultGuard st vaultId with
  | some e => Except.error e
  | none => Except.ok (st.vaults vaultId)

/-- `getEncryptedBeneficiary(vaultId, beneficiaryIndex)` (view, creator only). -/
def getEncryptedBeneficiary (st : ContractState) (sender vaultId beneficiaryIndex : Nat) :
    Except Err (Nat × Nat) :=
  match vaultGuard st vaultId with
  | some e => Except.error e
  | none =>
    if ¬ (st.vaults vaultId).creator = sender then Except.error Err.notVaultCreator
    else if ¬ beneficiaryIndex < (st.vaults vaultId).beneficiaryCount then
      Except.error Err.invalidIndex
    else
      Except.ok ((st.beneficiaries vaultId beneficiaryIndex).encryptedAddress,
                 (st.beneficiaries vaultId beneficiaryIndex).encryptedAmount)

/-- EVM transaction semantics for a state-returning call: a revert leaves the
pre-call storage in force. -/
def commit (st : ContractState) : Except Err ContractState → ContractState
  | Except.ok st' => st'
  | Except.error _ => st

/-- Same, for `createVault` (which also returns the fresh id). -/
def commitCreate (st : ContractState) : Except Err (ContractState × Nat) → ContractState
  | Except.ok p => p.1
  | Except.error _ => st

/-- One external transaction against the contract. -/
inductive Op where
  | createVault (sender value timestamp firstUnlockTime : Nat)
      (unlockMode : UnlockMode) (beneficiaryCount : Nat)
  | addBeneficiary (sender vaultId beneficiaryIndex encAddr encAmount : Nat)
  | emergencyUnlock (sender vaultId : Nat)
  | claimInheritance (sender timestamp vaultId : Nat) (transferOk : Bool)

/-- Apply one transaction, with revert semantics. -/
def step (st : ContractState) : Op → ContractState
  | Op.createVault s v t f m b => commitCreate st (createVault st s v t f m b)
  | Op.addBeneficiary s vid i a e => commit st (addBeneficiary st s vid i a e)
  | Op.emergencyUnlock s vid => commit st (emergencyUnlock st s vid)
  | Op.claimInheritance s t vid ok => commit st (claimInheritance st s t vid ok)

/-- The storage after a sequence of transactions against a fresh deployment. -/
def execTrace (ops : List Op) : ContractState :=
  ops.foldl step initialState

/-- Inductive invariant of the reachable storage: every vault's
`stagesUnlocked` is at most `TOTAL_STAGES`, every id beyond `vaultCount` is
still zero-initialized, every slot's `totalClaimed` is 0, and no payout has
been made. -/
def Inv (st : ContractState) : Prop :=
  (∀ v, (st.vaults v).stagesUnlocked ≤ TOTAL_STAGES) ∧
  (∀ v, st.vaultCount < v → st.vaults v = defaultVault) ∧
  (∀ v i, (st.beneficiaries v i).totalClaimed = 0) ∧
  st.payouts = []

/-- Example storage: one vault (id 1, creator 7, 100 wei, staged,
`firstUnlockTime = 50`, two slots), created at time 0. -/
def exSt0 : ContractState :=
  commitCreate initialState (createVault initialState 7 100 0 50 UnlockMode.STAGED 2)

/-- Example storage: `exSt0` after the creator writes slot 0 with ciphertext
handles 11 (identity) and 21 (entitlement). -/
def exSt1 : ContractState := commit exSt0 (addBeneficiary exSt0 7 1 0 11 21)

/-- Example storage: `exSt1` after the creator emergency-unlocks vault 1. -/
def exSt2 : ContractState := commit exSt1 (emergencyUnlock exSt1 7 1)

/-- A handcrafted storage holding an assigned but inactive vault (id 1),
exercising the `isActive` branch of the `vaultExists` modifier. -/
def exInactive : ContractState :=
  { initialState with
      vaultCount := 1,
      vaults := fun n =>
        if n = 1 then { defaultVault with id := 1, creator := 7, isActive := false }
        else defaultVault }

theorem find_eq (st : ContractState) (timestamp vaultId addr : Nat) :
    findBeneficiaryAndCalculateClaim st timestamp vaultId addr = (false, 0, 0) := by
  simp only [findBeneficiaryAndCalculateClaim, ite_self]

theorem vaultGuard_none (st : ContractState) (vaultId : Nat)
    (h : vaultGuard st vaultId = none) :
    0 < vaultId ∧ vaultId ≤ st.vaultCount ∧ (st.vaults vaultId).isActive = true := by
  unfold vaultGuard at h
  split_ifs at h with g1 g2
  push_neg at g1
  constructor
  · exact g1.1
  constructor
  · exact g1.2
  · simpa using g2

theorem vaultGuard_inactive (st : ContractState) (vaultId : Nat)
    (h : (st.vaults vaultId).isActive = false) :
    ∃ e, vaultGuard st vaultId = some e := by
  unfold vaultGuard
  split_ifs with g1 g2 <;> first | exact ⟨_, rfl⟩ | simp_all

theorem claimInheritance_cases (st : ContractState) (sender timestamp vaultId : Nat)
    (tOk : Bool) :
    claimInheritance st sender timestamp vaultId tOk =
      match vaultGuard st vaultId with
      | some e => Except.error e
      | none =>
        if ¬ getCurrentStage st timestamp vaultId > 0 then
          Except.error Err.noStagesUnlocked
        else Except.error Err.notABeneficiary := by
  unfold claimInheritance
  cases hg : vaultGuard st vaultId with
  | some e => rfl
  | none =>
    simp only [find_eq]
    split <;> simp

theorem claimInheritance_not_ok (st : ContractState) (sender timestamp vaultId : Nat)
    (tOk : Bool) :
    (claimInheritance st sender timestamp vaultId tOk).isOk = false := by
  rw [claimInheritance_cases]
  cases hg : vaultGuard st vaultId with
  | some e => rfl
  | none => split <;> first | rfl | (split <;> rfl)

theorem commit_claim (st : ContractState) (sender timestamp vaultId : Nat) (tOk : Bool) :
    commit st (claimInheritance st sender timestamp vaultId tOk) = st := by
  rw [claimInheritance_cases]
  cases hg : vaultGuard st vaultId with
  | some e => rfl
  | none => split <;> first | rfl | (split <;> rfl)

theorem inv_initial : Inv initialState := by
  refine ⟨fun v => ?_, fun v _ => rfl, fun v i => rfl, rfl⟩
  simp [initialState, defaultVault, TOTAL_STAGES]

theorem inv_step_create (st : ContractState) (h : Inv st) (s v t f : Nat)
    (m : UnlockMode) (b : Nat) :
    Inv (commitCreate st (createVault st s v t f m b)) ∧
    (∀ w, (st.vaults w).stagesUnlocked
        ≤ ((commitCreate st (createVault st s v t f m b)).vaults w).stagesUnlocked) := by
  obtain ⟨h1, h2, h3, h4⟩ := h
  unfold createVault
  split_ifs with g1 g2 g3
  · refine ⟨⟨fun w => ?_, fun w hw => ?_, h3, h4⟩, fun w => ?_⟩
    · by_cases hw : w = st.vaultCount + 1
      · simp [commitCreate, hw, TOTAL_STAGES]
      · simpa [commitCreate, hw] using h1 w
    · have hw1 : w ≠ st.vaultCount + 1 := by
        intro he
        rw [he] at hw
        exact absurd hw (by simp [commitCreate])
      have hw2 : st.vaultCount < w := by
        simp only [commitCreate] at hw
        omega
      simpa [commitCreate, hw1] using h2 w hw2
    · by_cases hw : w = st.vaultCount + 1
      · have := h2 (st.vaultCount + 1) (by omega)
        rw [hw, this]
        simp [commitCreate, defaultVault]
      · simp [commitCreate, hw]
  · exact ⟨⟨h1, h2, h3, h4⟩, fun w => le_refl _⟩
  · exact ⟨⟨h1, h2, h3, h4⟩, fun w => le_refl _⟩
  · exact ⟨⟨h1, h2, h3, h4⟩, fun w => le_refl _⟩

theorem addBeneficiary_vaults (st : ContractState) (s vid i a e : Nat) :
    (commit st (addBeneficiary st s vid i a e)).vaults = st.vaults ∧
    (commit st (addBeneficiary st s vid i a e)).vaultCount = st.vaultCount ∧
    (commit st (addBeneficiary st s vid i a e)).payouts = st.payouts := by
  unfold addBeneficiary
  cases vaultGuard st vid with
  | some e => exact ⟨rfl, rfl, rfl⟩
  | none => split_ifs <;> exact ⟨rfl, rfl, rfl⟩

theorem inv_step_add (st : ContractState) (h : Inv st) (s vid i a e : Nat) :
    Inv (commit st (addBeneficiary st s vid i a e)) := by
  obtain ⟨h1, h2, h3, h4⟩ := h
  unfold addBeneficiary
  cases vaultGuard st vid with
  | some e => exact ⟨h1, h2, h3, h4⟩
  | none =>
    split_ifs with g1 g2 g3
    all_goals try exact ⟨h1, h2, h3, h4⟩
    refine ⟨h1, h2, fun w j => ?_, h4⟩
    by_cases hw : w = vid ∧ j = i
    · simp [commit, hw]
    · simpa [commit, hw] using h3 w j

theorem inv_step_unlock (st : ContractState) (h : Inv st) (s vid : Nat) :
    Inv (commit st (emergencyUnlock st s vid)) ∧
    (∀ w, (st.vaults w).stagesUnlocked
        ≤ ((commit st (emergencyUnlock st s vid)).vaults w).stagesUnlocked) := by
  obtain ⟨h1, h2, h3, h4⟩ := h
  unfold emergencyUnlock
  cases hg : vaultGuard st vid with
  | some e => exact ⟨⟨h1, h2, h3, h4⟩, fun w => le_refl _⟩
  | none =>
    obtain ⟨hv1, hv2, hv3⟩ := vaultGuard_none st vid hg
    split_ifs with g1 g2
    all_goals try exact ⟨⟨h1, h2, h3, h4⟩, fun w => le_refl _⟩
    refine ⟨⟨fun w => ?_, fun w hw => ?_, h3, h4⟩, fun w => ?_⟩
    · by_cases hw : w = vid
      · simp [commit, hw, TOTAL_STAGES]
      · simpa [commit, hw] using h1 w
    · have hw1 : w ≠ vid := by
        intro he
        simp only [commit] at hw
        omega
      simp only [commit] at hw ⊢
      simpa [hw1] using h2 w hw
    · by_cases hw : w = vid
      · subst hw
        simpa [commit] using h1 w
      · simp [commit, hw]

theorem inv_step (st : ContractState) (h : Inv st) (op : Op) :
    Inv (step st op) ∧
    (∀ w, (st.vaults w).stagesUnlocked ≤ ((step st op).vaults w).stagesUnlocked) := by
  cases op with
  | createVault s v t f m b => exact inv_step_create st h s v t f m b
  | addBeneficiary s vid i a e =>
    refine ⟨inv_step_add st h s vid i a e, fun w => ?_⟩
    rw [show (step st (Op.addBeneficiary s vid i a e)).vaults = st.vaults from
      (addBeneficiary_vaults st s vid i a e).1]
  | emergencyUnlock s vid => exact inv_step_unlock st h s vid
  | claimInheritance s t vid tOk =>
    refine ⟨?_, fun w => ?_⟩ <;> rw [show step st (Op.claimInheritance s t vid tOk) = st from
      commit_claim st s t vid tOk]
    exact h

theorem inv_execTrace (ops : List Op) : Inv (execTrace ops) := by
  have key : ∀ (l : List Op) (st : ContractState), Inv st → Inv (l.foldl step st) := by
    intro l
    induction l with
    | nil => exact fun st h => h
    | cons op l ih => exact fun st h => ih (step st op) (inv_step st h op).1
  exact key ops initialState inv_initial

/-- C2: for every vault and every current time, the stage calculator returns
`TOTAL_STAGES` if the vault is emergency-unlocked; otherwise 0 before
`firstUnlockTime`; otherwise `TOTAL_STAGES` in `ONE_TIME` mode; otherwise
`min(TOTAL_STAGES, floor((now − firstUnlockTime) / STAGE_INTERVAL) + 1)`,
with `TOTAL_STAGES = 4` and the stage interval equal to 365 days. -/
theorem C2_stage_calculator (st : ContractState) (now vaultId : Nat) :
    getCurrentStage st now vaultId =
      (if (st.vaults vaultId).emergencyUnlocked then 4
       else if now < (st.vaults vaultId).firstUnlockTime then 0
       else if (st.vaults vaultId).unlockMode = UnlockMode.ONE_TIME then 4
       else min 4 ((now - (st.vaults vaultId).firstUnlockTime) / (365 * 24 * 60 * 60) + 1)) ∧
    TOTAL_STAGES = 4 ∧ UNLOCK_INTERVAL = 365 * 24 * 60 * 60 := by
  refine ⟨?_, rfl, rfl⟩
  unfold getCurrentStage
  simp only [TOTAL_STAGES, UNLOCK_INTERVAL]
  norm_num
  split_ifs <;> omega

/-- C4: across any sequence of transactions from deployment, no vault's
`stagesUnlocked` ever decreases, and it never exceeds `TOTAL_STAGES`. -/
theorem C4_stagesUnlocked_monotone_bounded (ops : List Op) (op : Op) (v : Nat) :
    ((execTrace ops).vaults v).stagesUnlocked
        ≤ ((execTrace (ops ++ [op])).vaults v).stagesUnlocked ∧
    ((execTrace (ops ++ [op])).vaults v).stagesUnlocked ≤ TOTAL_STAGES := by
  have hinv := inv_execTrace ops
  have he : execTrace (ops ++ [op]) = step (execTrace ops) op := by
    simp [execTrace, List.foldl_append]
  rw [he]
  exact ⟨(inv_step _ hinv op).2 v, ((inv_step _ hinv op).1).1 v⟩

/-- C6: `createVault` fails with the deposit error exactly when the deposited
amount is 0 (a `uint256` is never negative), with the schedule error exactly
when the deposit is fine but `firstUnlockTime` is not strictly in the future,
and with the slot-count error exactly when deposit and schedule are fine but
`beneficiaryCount = 0`; otherwise it succeeds and returns the fresh
sequentially assigned id `vaultCount + 1` with `stagesUnlocked = 0`,
`emergencyUnlocked = false` and `isActive = true`. -/
theorem C6_createVault_validation (st : ContractState)
    (sender value timestamp firstUnlockTime : Nat) (unlockMode : UnlockMode)
    (beneficiaryCount : Nat) :
    (createVault st sender value timestamp firstUnlockTime unlockMode beneficiaryCount
        = Except.error Err.mustDepositEth ↔ value = 0) ∧
    (createVault st sender value timestamp firstUnlockTime unlockMode beneficiaryCount
        = Except.error Err.unlockTimeNotInFuture ↔
          0 < value ∧ firstUnlockTime ≤ timestamp) ∧
    (createVault st sender value timestamp firstUnlockTime unlockMode beneficiaryCount
        = Except.error Err.noBeneficiaries ↔
          0 < value ∧ timestamp < firstUnlockTime ∧ beneficiaryCount = 0) ∧
    (0 < value → timestamp < firstUnlockTime → 0 < beneficiaryCount →
      ∃ st', createVault st sender value timestamp firstUnlockTime unlockMode beneficiaryCount
          = Except.ok (st', st.vaultCount + 1) ∧
        st'.vaultCount = st.vaultCount + 1 ∧
        st'.vaults (st.vaultCount + 1) =
          { id := st.vaultCount + 1, creator := sender, totalAmount := value,
            firstUnlockTime := firstUnlockTime, stagesUnlocked := 0,
            emergencyUnlocked := false, isActive := true,
            beneficiaryCount := beneficiaryCount, unlockMode := unlockMode }) := by
  refine ⟨?_, ?_, ?_, ?_⟩
  · unfold createVault
    split_ifs with g1 g2 g3 <;> simp_all <;> omega
  · unfold createVault
    split_ifs with g1 g2 g3 <;> simp_all <;> omega
  · unfold createVault
    split_ifs with g1 g2 g3 <;> simp_all <;> omega
  · intro h1 h2 h3
    unfold createVault
    rw [if_neg (by omega), if_neg (by omega), if_neg (by omega)]
    exact ⟨_, rfl, rfl, by simp⟩

/-- C8: whenever `claimInheritance` reverts (for any reason), the committed
transaction leaves the whole storage — including every vault's
`stagesUnlocked` and every slot's `totalClaimed` — exactly as before the
call. -/
theorem C8_failed_claim_rolls_back (st : ContractState) (sender timestamp vaultId : Nat)
    (tOk : Bool) (e : Err)
    (h : claimInheritance st sender timestamp vaultId tOk = Except.error e) :
    commit st (claimInheritance st sender timestamp vaultId tOk) = st ∧
    (∀ v, ((commit st (claimInheritance st sender timestamp vaultId tOk)).vaults v).stagesUnlocked
        = (st.vaults v).stagesUnlocked) ∧
    (∀ v i, ((commit st (claimInheritance st sender timestamp vaultId tOk)).beneficiaries v i).totalClaimed
        = (st.beneficiaries v i).totalClaimed) ∧
    (commit st (claimInheritance st sender timestamp vaultId tOk)).payouts = st.payouts := by
  rw [h]
  exact ⟨rfl, fun v => rfl, fun v i => rfl, rfl⟩

/-- C8 witness: a concrete failing claim (unassigned vault id on a fresh
deployment) leaves the storage unchanged. -/
theorem C8_witness :
    claimInheritance initialState 5 0 1 true = Except.error Err.vaultDoesNotExist ∧
    commit initialState (claimInheritance initialState 5 0 1 true) = initialState :=
  ⟨by rfl, (C8_failed_claim_rolls_back initialState 5 0 1 true Err.vaultDoesNotExist (by rfl)).1⟩

/-- C9: in this implementation `claimInheritance` never succeeds, across any
sequence of transactions from deployment no slot's `totalClaimed` ever leaves
0 and no value is ever paid out, and `checkInheritance`, when it does not
revert, reports `isBeneficiary = false` for every caller. -/
theorem C9_claim_never_succeeds (st : ContractState) (sender timestamp vaultId : Nat)
    (tOk : Bool) (ops : List Op) (v i : Nat) :
    (claimInheritance st sender timestamp vaultId tOk).isOk = false ∧
    ((execTrace ops).beneficiaries v i).totalClaimed = 0 ∧
    (execTrace ops).payouts = [] ∧
    (checkInheritance st sender timestamp vaultId = Except.ok (false, 0, 0) ∨
      (checkInheritance st sender timestamp vaultId).isOk = false) := by
  obtain ⟨-, -, h3, h4⟩ := inv_execTrace ops
  refine ⟨claimInheritance_not_ok st sender timestamp vaultId tOk, h3 v i, h4, ?_⟩
  unfold checkInheritance
  cases vaultGuard st vaultId with
  | some e => exact Or.inr rfl
  | none =>
    rw [find_eq]
    exact Or.inl rfl

/-- C10: `getVault` fails for an unassigned id (0 or beyond `vaultCount`) and
for an assigned but inactive vault, succeeding only on an active assigned
vault; and every other per-vault operation likewise fails on an inactive
vault. -/
theorem C10_vault_access_requires_active (st : ContractState) (vaultId : Nat) :
    (vaultId = 0 ∨ st.vaultCount < vaultId →
        getVault st vaultId = Except.error Err.vaultDoesNotExist) ∧
    (0 < vaultId → vaultId ≤ st.vaultCount → (st.vaults vaultId).isActive = false →
        getVault st vaultId = Except.error Err.vaultNotActive) ∧
    (∀ v, getVault st vaultId = Except.ok v →
        0 < vaultId ∧ vaultId ≤ st.vaultCount ∧ (st.vaults vaultId).isActive = true) ∧
    ((st.vaults vaultId).isActive = false →
      ∀ sender timestamp idx a b tOk,
        (addBeneficiary st sender vaultId idx a b).isOk = false ∧
        (emergencyUnlock st sender vaultId).isOk = false ∧
        (claimInheritance st sender timestamp vaultId tOk).isOk = false ∧
        (checkInheritance st sender timestamp vaultId).isOk = false ∧
        (getEncryptedBeneficiary st sender vaultId idx).isOk = false) := by
  refine ⟨?_, ?_, ?_, ?_⟩
  · intro h
    have hg : vaultGuard st vaultId = some Err.vaultDoesNotExist := by
      unfold vaultGuard
      rw [if_pos (by omega)]
    unfold getVault
    rw [hg]
  · intro h1 h2 hact
    have hg : vaultGuard st vaultId = some Err.vaultNotActive := by
      unfold vaultGuard
      rw [if_neg (by omega), if_pos (by simp [hact])]
    unfold getVault
    rw [hg]
  · intro v hv
    cases hg : vaultGuard st vaultId with
    | some e =>
      unfold getVault at hv
      rw [hg] at hv
      cases hv
    | none => exact vaultGuard_none st vaultId hg
  · intro hact sender timestamp idx a b tOk
    obtain ⟨e, hg⟩ := vaultGuard_inactive st vaultId hact
    refine ⟨?_, ?_, claimInheritance_not_ok st sender timestamp vaultId tOk, ?_, ?_⟩
    · unfold addBeneficiary
      rw [hg]
      rfl
    · unfold emergencyUnlock
      rw [hg]
      rfl
    · unfold checkInheritance
      rw [hg]
      rfl
    · unfold getEncryptedBeneficiary
      rw [hg]
      rfl

/-- C10 witness: concrete failures — unassigned id 1 on a fresh deployment,
and id 1 assigned but inactive in a handcrafted storage. -/
theorem C10_witness :
    getVault initialState 1 = Except.error Err.vaultDoesNotExist ∧
    getVault exInactive 1 = Except.error Err.vaultNotActive ∧
    (emergencyUnlock exInactive 7 1).isOk = false :=
  ⟨(C10_vault_access_requires_active initialState 1).1 (Or.inr (by decide)),
   (C10_vault_access_requires_active exInactive 1).2.1 (by decide) (by decide) (by decide),
   ((C10_vault_access_requires_active exInactive 1).2.2.2 (by decide) 7 0 0 0 0 true).2.1⟩

/-- C6 witness: a concrete valid creation on a fresh deployment yields vault
id 1 with `stagesUnlocked = 0`, `emergencyUnlocked = false`, `isActive = true`. -/
theorem C6_witness :
    ∃ st', createVault initialState 7 100 0 50 UnlockMode.STAGED 2
        = Except.ok (st', initialState.vaultCount + 1) ∧
      st'.vaultCount = initialState.vaultCount + 1 ∧
      st'.vaults (initialState.vaultCount + 1) =
        { id := initialState.vaultCount + 1, creator := 7, totalAmount := 100,
          firstUnlockTime := 50, stagesUnlocked := 0, emergencyUnlocked := false,
          isActive := true, beneficiaryCount := 2, unlockMode := UnlockMode.STAGED } :=
  (C6_createVault_validation initialState 7 100 0 50 UnlockMode.STAGED 2).2.2.2
    (by decide) (by decide) (by decide)

theorem emergencyUnlock_ok (st st' : ContractState) (sender vaultId : Nat)
    (h : emergencyUnlock st sender vaultId = Except.ok st') :
    vaultGuard st vaultId = none ∧
    (st.vaults vaultId).creator = sender ∧
    (st.vaults vaultId).emergencyUnlocked = false ∧
    st'.vaultCount = st.vaultCount ∧
    st'.vaults vaultId =
      { st.vaults vaultId with
          emergencyUnlocked := true, stagesUnlocked := TOTAL_STAGES } := by
  unfold emergencyUnlock at h
  cases hg : vaultGuard st vaultId with
  | some e =>
    rw [hg] at h
    cases h
  | none =>
    rw [hg] at h
    split_ifs at h with hc he
    injection h with h
    subst h
    exact ⟨rfl, hc, by simpa using he, rfl, by simp⟩

/-- C7: `emergencyUnlock` succeeds only when the caller is the vault's creator
and the vault is not yet emergency-unlocked, in which case it sets
`emergencyUnlocked = true` and `stagesUnlocked = TOTAL_STAGES`; a second
invocation by the creator on the same vault fails `AlreadyEmergencyUnlocked`
and, by revert semantics, leaves the storage unchanged. -/
theorem C7_emergencyUnlock_once (st st' : ContractState) (sender vaultId : Nat)
    (h : emergencyUnlock st sender vaultId = Except.ok st') :
    (st.vaults vaultId).creator = sender ∧
    (st.vaults vaultId).emergencyUnlocked = false ∧
    (st'.vaults vaultId).emergencyUnlocked = true ∧
    (st'.vaults vaultId).stagesUnlocked = TOTAL_STAGES ∧
    emergencyUnlock st' sender vaultId = Except.error Err.alreadyEmergencyUnlocked ∧
    commit st' (emergencyUnlock st' sender vaultId) = st' := by
  obtain ⟨hg, hc, hemf, hcnt, hvlt⟩ := emergencyUnlock_ok st st' sender vaultId h
  obtain ⟨hv1, hv2, hv3⟩ := vaultGuard_none st vaultId hg
  have hg2 : vaultGuard st' vaultId = none := by
    unfold vaultGuard
    rw [if_neg (by simp only [not_not, hcnt]; exact ⟨hv1, hv2⟩)]
    rw [if_neg (by simp [hvlt, hv3])]
  have hsec : emergencyUnlock st' sender vaultId
      = Except.error Err.alreadyEmergencyUnlocked := by
    unfold emergencyUnlock
    rw [hg2]
    simp [hvlt, hc]
  refine ⟨hc, hemf, by simp [hvlt], by simp [hvlt], hsec, by rw [hsec]; rfl⟩

/-- C7 witness: the creator emergency-unlocks vault 1 of `exSt1`; the second
invocation fails `AlreadyEmergencyUnlocked` and changes nothing. -/
theorem C7_witness :
    (exSt1.vaults 1).creator = 7 ∧
    (exSt1.vaults 1).emergencyUnlocked = false ∧
    (exSt2.vaults 1).emergencyUnlocked = true ∧
    (exSt2.vaults 1).stagesUnlocked = TOTAL_STAGES ∧
    emergencyUnlock exSt2 7 1 = Except.error Err.alreadyEmergencyUnlocked ∧
    commit exSt2 (emergencyUnlock exSt2 7 1) = exSt2 :=
  C7_emergencyUnlock_once exSt1 exSt2 7 1 (by rfl)

/-- C1 (code evidence): vault 1 of `exSt1` is active, has a written slot 0,
and is fully staged at the given time, yet the claim — by any caller,
including the slot's beneficiary — reverts with the not-a-beneficiary error,
and no call to `claimInheritance` ever succeeds: the implementation never
computes the spec's `matchedEntitlement * S / TOTAL_STAGES −
matchedAlreadyClaimed` formula (the matching function is an unimplemented
placeholder). -/
theorem C1_claim_formula_unimplemented :
    0 < getCurrentStage exSt1 1000000000 1 ∧
    (exSt1.beneficiaries 1 0).encryptedAddress = 11 ∧
    claimInheritance exSt1 11 1000000000 1 true = Except.error Err.notABeneficiary ∧
    (∀ st sender timestamp vaultId tOk,
      (claimInheritance st sender timestamp vaultId tOk).isOk = false) :=
  ⟨by decide, by decide, by rfl,
   fun st s t v tOk => claimInheritance_not_ok st s t v tOk⟩

/-- C3 (code evidence): slot (1,0) of `exSt1` is already written with
ciphertexts 11/21, yet a second `addBeneficiary` on the same (vaultId, index)
succeeds — the guard only checks `totalClaimed == 0` — and silently replaces
both ciphertexts with 12/22. -/
theorem C3_second_write_overwrites :
    (exSt1.beneficiaries 1 0).encryptedAddress = 11 ∧
    (exSt1.beneficiaries 1 0).encryptedAmount = 21 ∧
    (addBeneficiary exSt1 7 1 0 12 22).isOk = true ∧
    ((commit exSt1 (addBeneficiary exSt1 7 1 0 12 22)).beneficiaries 1 0).encryptedAddress = 12 ∧
    ((commit exSt1 (addBeneficiary exSt1 7 1 0 12 22)).beneficiaries 1 0).encryptedAmount = 22 :=
  ⟨by decide, by decide, by decide, by decide, by decide⟩

theorem claimInheritance_eq_of_guard_none (st : ContractState)
    (sender timestamp vaultId : Nat) (tOk : Bool)
    (hg : vaultGuard st vaultId = none) :
    claimInheritance st sender timestamp vaultId tOk =
      if ¬ getCurrentStage st timestamp vaultId > 0 then
        Except.error Err.noStagesUnlocked
      else Except.error Err.notABeneficiary := by
  rw [claimInheritance_cases, hg]

/-- C5 counterexample: vault 1 of `exSt2` has `stagesUnlocked = 4 > 0` and
caller 99 matches no written slot, yet the claim reverts with the
not-a-beneficiary error — not the nothing-to-claim error the claim names. -/
theorem C5_counterexample :
    0 < (exSt2.vaults 1).stagesUnlocked ∧
    claimInheritance exSt2 99 1000 1 true = Except.error Err.notABeneficiary ∧
    claimInheritance exSt2 99 1000 1 true ≠ Except.error Err.nothingToClaim := by
  have h2 : claimInheritance exSt2 99 1000 1 true = Except.error Err.notABeneficiary := by
    rfl
  refine ⟨by decide, h2, ?_⟩
  rw [h2]
  simp

/-- C5 (amended): for every active vault with a stage unlocked at call time,
every claimant resolves no match — the matching result is `(false, 0, 0)` —
and the claim fails with the not-a-beneficiary error (the nothing-to-claim
branch is unreachable), transferring nothing and changing no state. -/
theorem C5_amended_nonbeneficiary_claim (st : ContractState)
    (sender timestamp vaultId : Nat) (tOk : Bool)
    (hg : vaultGuard st vaultId = none)
    (hs : 0 < getCurrentStage st timestamp vaultId) :
    findBeneficiaryAndCalculateClaim st timestamp vaultId sender = (false, 0, 0) ∧
    claimInheritance st sender timestamp vaultId tOk = Except.error Err.notABeneficiary ∧
    commit st (claimInheritance st sender timestamp vaultId tOk) = st := by
  have hc := claimInheritance_eq_of_guard_none st sender timestamp vaultId tOk hg
  rw [if_neg (by omega)] at hc
  exact ⟨find_eq st timestamp vaultId sender, hc, by rw [hc]; rfl⟩

/-- C5 witness: the amended statement at the concrete storage `exSt2`,
claimant 99. -/
theorem C5_amended_witness :
    findBeneficiaryAndCalculateClaim exSt2 1000 1 99 = (false, 0, 0) ∧
    claimInheritance exSt2 99 1000 1 true = Except.error Err.notABeneficiary ∧
    commit exSt2 (claimInheritance exSt2 99 1000 1 true) = exSt2 :=
  C5_amended_nonbeneficiary_claim exSt2 99 1000 1 true (by decide) (by decide)

end TimeLock
